import Mathlib

/-!
# CefWindowDelegateView

A shallow embedding of `libcef/browser/native/window_delegate_view.cc`.

The class is a `views::WidgetDelegateView`: besides its four member fields it
inherits the view state that its methods write (background, layout manager,
children).  Every call that leaves the class (to the views toolkit or to the
stored closure) is appended, in program order, to the `calls` field, so that
"how often" and "with which argument" are properties of the state.

The views toolkit is not part of this repository.  What `views::Widget::Init`
does with the parameters it receives is therefore an input of the model
(`Toolkit`): which notifications it delivers to the delegate before it
returns, and what the three accessors read by the closing assertions report.
-/

set_option linter.dupNamespace false

namespace libcef

/-! ## Toolkit value types -/

/-- The colour type `SkColor`: a 32-bit ARGB value. -/
abbrev SkColor := Nat

/-- The native window handle type `gfx::AcceleratedWidget`. -/
abbrev AcceleratedWidget := Nat

/-- The browser context a web contents belongs to, `content::BrowserContext*`. -/
abbrev BrowserContext := Nat

/-- The value `gfx::Size`. -/
structure Size where
  width : Int
  height : Int
  deriving DecidableEq, Repr

/-- The value `gfx::Rect`: an origin and a size. -/
structure Rect where
  x : Int
  y : Int
  width : Int
  height : Int
  deriving DecidableEq, Repr

/-- The accessor `gfx::Rect::size()`. -/
def Rect.size (r : Rect) : Size := ⟨r.width, r.height⟩

/-- The object behind a `content::WebContents*`: its identity and the browser
context that `GetBrowserContext()` returns. -/
structure WebContents where
  id : Nat
  browser_context : BrowserContext
  deriving DecidableEq, Repr

/-- The accessor `content::WebContents::GetBrowserContext()`. -/
def WebContents.GetBrowserContext (w : WebContents) : BrowserContext := w.browser_context

/-- The object `views::WebView`, as far as this file touches it: the browser
context it was constructed with, the attached web contents and the preferred
size. -/
structure WebView where
  browser_context : BrowserContext
  web_contents : Option WebContents
  preferred_size : Option Size
  deriving DecidableEq, Repr

/-- The constructor `views::WebView::WebView(browser_context)`. -/
def WebView.new (browser_context : BrowserContext) : WebView :=
  { browser_context := browser_context, web_contents := none, preferred_size := none }

/-- The setter `views::WebView::SetWebContents`. -/
def WebView.SetWebContents (v : WebView) (web_contents : WebContents) : WebView :=
  { v with web_contents := some web_contents }

/-- The setter `views::View::SetPreferredSize`. -/
def WebView.SetPreferredSize (v : WebView) (size : Size) : WebView :=
  { v with preferred_size := some size }

/-- A `views::View*` as seen from one `CefWindowDelegateView`: null, the node
itself (`this`), a web view, or some other view of the hierarchy. -/
inductive ViewPtr where
  | null
  | this
  | web_view (v : WebView)
  | other (address : Nat)
  deriving DecidableEq, Repr

/-- The implicit conversion of a `views::WebView*` (null when `none`) to a
`views::View*`. -/
def ViewPtr.ofWebView : Option WebView → ViewPtr
  | none => ViewPtr.null
  | some v => ViewPtr.web_view v

/-- The value `views::Background` built by `views::CreateSolidBackground`. -/
inductive Background where
  | solid (color : SkColor)
  deriving DecidableEq, Repr

/-- The function `views::CreateSolidBackground`. -/
def CreateSolidBackground (color : SkColor) : Background := Background.solid color

/-- The layout managers this file installs. -/
inductive LayoutManager where
  | FillLayout
  deriving DecidableEq, Repr

/-- The enumeration `views::Widget::InitParams::Type`. -/
inductive InitParamsType where
  | TYPE_WINDOW
  | TYPE_CONTROL
  | TYPE_POPUP
  deriving DecidableEq, Repr

/-- The enumeration `views::Widget::InitParams::WindowOpacity`. -/
inductive WindowOpacity where
  | INFER_OPACITY
  | OPAQUE_WINDOW
  | TRANSLUCENT_WINDOW
  deriving DecidableEq, Repr

/-- The enumeration `views::Widget::InitParams::Activatable`. -/
inductive Activatable where
  | ACTIVATABLE_DEFAULT
  | ACTIVATABLE_YES
  | ACTIVATABLE_NO
  deriving DecidableEq, Repr

/-- The fields of `views::Widget::InitParams` that `Init` assigns. -/
structure InitParams where
  parent_widget : AcceleratedWidget
  bounds : Rect
  delegate : ViewPtr
  child : Bool
  type : InitParamsType
  opacity : WindowOpacity
  remove_standard_frame : Bool
  activatable : Activatable
  keep_on_top : Bool
  deriving DecidableEq, Repr

/-- The value `views::ViewHierarchyChangedDetails`.  The method below reads
`is_add` and `child` only. -/
structure ViewHierarchyChangedDetails where
  is_add : Bool
  parent : ViewPtr
  child : ViewPtr
  move_view : ViewPtr
  deriving DecidableEq, Repr

/-- A `base::RepeatingClosure`: null (`none`, for which `is_null()` holds) or
bound to a target. -/
abbrev RepeatingClosure := Option Nat

/-- A call that leaves the class. -/
inductive Call where
  | SetBackground (background : Background)
  | SetLayoutManager (layout : LayoutManager)
  | AddChildView (view : ViewPtr)
  | Widget_Init (params : InitParams)
  | WidgetDelegateView_OnBoundsChanged (previous_bounds : Rect)
  | Run (target : Nat)
  deriving DecidableEq, Repr

/-- A notification the toolkit delivers to the node. -/
inductive Notification where
  | ViewHierarchyChanged (details : ViewHierarchyChangedDetails)
  | OnBoundsChanged (previous_bounds : Rect)
  deriving DecidableEq, Repr

/-- What one call of `views::Widget::Init` does, seen from the delegate: the
notifications it delivers before returning, and what `GetWidget()`,
`is_top_level()` and `CanActivate()` report afterwards. -/
structure WidgetInitOutcome where
  notifications : List Notification
  widget_is_GetWidget : Bool
  is_top_level : Bool
  CanActivate : Bool
  deriving DecidableEq, Repr

/-- The views toolkit: the outcome of `views::Widget::Init` for given
parameters. -/
structure Toolkit where
  Widget_Init : InitParams → WidgetInitOutcome

/-! ## The class -/

/-- The object `CefWindowDelegateView`: its member fields, the inherited view
state its methods write, and the calls it has made so far. -/
structure CefWindowDelegateView where
  background_color_ : SkColor
  web_view_ : Option WebView
  always_on_top_ : Bool
  on_bounds_changed_ : RepeatingClosure
  background : Option Background
  layout_manager : Option LayoutManager
  children : List ViewPtr
  calls : List Call
  deriving DecidableEq, Repr

/-- The assertion that stopped `Init`. -/
inductive InitError where
  | DCHECK_not_web_view_
  | DCHECK_EQ_widget_GetWidget
  | DCHECK_is_top_level
  | DCHECK_CanActivate
  deriving DecidableEq, Repr

/-- The outcome of `Init`: the state when it returned or stopped, and the
assertion that stopped it, if any. -/
structure InitResult where
  state : CefWindowDelegateView
  failed : Option InitError
  deriving DecidableEq, Repr

/-- Modelled from the spec: the macro `DCHECK` (from the base library, not in
this repository).  The spec has a violated assertion halt execution; the
model stops the function there when the condition is false. -/
def DCHECK (condition : Bool) (e : InitError) (state : CefWindowDelegateView)
    (continuation : Unit → InitResult) : InitResult :=
  if condition then continuation () else { state := state, failed := some e }

/-- The inherited setter `views::View::SetBackground`. -/
def CefWindowDelegateView.SetBackground (self : CefWindowDelegateView) (b : Background) :
    CefWindowDelegateView :=
  { self with background := some b, calls := self.calls ++ [Call.SetBackground b] }

/-- The inherited setter `views::View::SetLayoutManager`. -/
def CefWindowDelegateView.SetLayoutManager (self : CefWindowDelegateView) (l : LayoutManager) :
    CefWindowDelegateView :=
  { self with layout_manager := some l, calls := self.calls ++ [Call.SetLayoutManager l] }

/-- The inherited method `views::View::AddChildView`: the pointer it is handed
becomes the last child. -/
def CefWindowDelegateView.AddChildView (self : CefWindowDelegateView) (view : ViewPtr) :
    CefWindowDelegateView :=
  { self with children := self.children ++ [view], calls := self.calls ++ [Call.AddChildView view] }

/-- The method `CefWindowDelegateView::InitContent`. -/
def CefWindowDelegateView.InitContent (self : CefWindowDelegateView) : CefWindowDelegateView :=
  let self := self.SetBackground (CreateSolidBackground self.background_color_)
  let self := self.SetLayoutManager LayoutManager.FillLayout
  self.AddChildView (ViewPtr.ofWebView self.web_view_)

/-- The method `CefWindowDelegateView::ViewHierarchyChanged`. -/
def CefWindowDelegateView.ViewHierarchyChanged (self : CefWindowDelegateView)
    (details : ViewHierarchyChangedDetails) : CefWindowDelegateView :=
  if details.is_add && details.child == ViewPtr.this then
    self.InitContent
  else
    self

/-- The method `CefWindowDelegateView::OnBoundsChanged`: the base
implementation is called first, then the closure is run unless it is null. -/
def CefWindowDelegateView.OnBoundsChanged (self : CefWindowDelegateView)
    (previous_bounds : Rect) : CefWindowDelegateView :=
  let self : CefWindowDelegateView :=
    { self with calls := self.calls ++ [Call.WidgetDelegateView_OnBoundsChanged previous_bounds] }
  match self.on_bounds_changed_ with
  | none => self
  | some target => { self with calls := self.calls ++ [Call.Run target] }

/-- One notification delivered to the node. -/
def CefWindowDelegateView.notify (self : CefWindowDelegateView) :
    Notification → CefWindowDelegateView
  | Notification.ViewHierarchyChanged details => self.ViewHierarchyChanged details
  | Notification.OnBoundsChanged previous_bounds => self.OnBoundsChanged previous_bounds

/-- A sequence of notifications delivered to the node, first to last. -/
def CefWindowDelegateView.deliver (self : CefWindowDelegateView) :
    List Notification → CefWindowDelegateView
  | [] => self
  | n :: ns => (self.notify n).deliver ns

/-- The parameters `Init` fills in before it calls `views::Widget::Init`
(lines 37 to 53 of the source). -/
def CefWindowDelegateView.Init_params (self : CefWindowDelegateView)
    (parent_widget : AcceleratedWidget) (bounds : Rect) : InitParams :=
  { parent_widget := parent_widget
    bounds := bounds
    delegate := ViewPtr.this
    child := true
    type := InitParamsType.TYPE_CONTROL
    opacity := WindowOpacity.OPAQUE_WINDOW
    remove_standard_frame := true
    activatable := Activatable.ACTIVATABLE_YES
    keep_on_top := self.always_on_top_ }

/-- The method `CefWindowDelegateView::Init`. -/
def CefWindowDelegateView.Init (tk : Toolkit) (self : CefWindowDelegateView)
    (parent_widget : AcceleratedWidget) (web_contents : WebContents) (bounds : Rect) :
    InitResult :=
  DCHECK (!self.web_view_.isSome) InitError.DCHECK_not_web_view_ self fun _ =>
  let web_view := WebView.new web_contents.GetBrowserContext
  let web_view := web_view.SetWebContents web_contents
  let web_view := web_view.SetPreferredSize bounds.size
  let self : CefWindowDelegateView := { self with web_view_ := some web_view }
  let params := self.Init_params parent_widget bounds
  let widget := tk.Widget_Init params
  let self : CefWindowDelegateView := { self with calls := self.calls ++ [Call.Widget_Init params] }
  let self := self.deliver widget.notifications
  DCHECK widget.widget_is_GetWidget InitError.DCHECK_EQ_widget_GetWidget self fun _ =>
  DCHECK widget.is_top_level InitError.DCHECK_is_top_level self fun _ =>
  DCHECK widget.CanActivate InitError.DCHECK_CanActivate self fun _ =>
  { state := self, failed := none }

/-- The constructor `CefWindowDelegateView::CefWindowDelegateView`. -/
def CefWindowDelegateView.CefWindowDelegateView (background_color : SkColor)
    (always_on_top : Bool) (on_bounds_changed : RepeatingClosure) : CefWindowDelegateView :=
  { background_color_ := background_color
    web_view_ := none
    always_on_top_ := always_on_top
    on_bounds_changed_ := on_bounds_changed
    background := none
    layout_manager := none
    children := []
    calls := [] }

/-! ## Observations on the recorded calls -/

/-- Whether a call is a run of a closure. -/
def Call.isRun : Call → Bool
  | Call.Run _ => true
  | _ => false

/-- How many times a closure was run. -/
def runCount (calls : List Call) : Nat := calls.countP Call.isRun

/-- The pointer handed to `AddChildView`, for such a call. -/
def Call.addedView : Call → Option ViewPtr
  | Call.AddChildView v => some v
  | _ => none

/-- The pointers handed to `AddChildView`, in call order. -/
def addedViews (calls : List Call) : List ViewPtr := calls.filterMap Call.addedView

/-- The parameters handed to `views::Widget::Init`, for such a call. -/
def Call.widgetInitParams : Call → Option InitParams
  | Call.Widget_Init p => some p
  | _ => none

/-- The parameters handed to `views::Widget::Init`, in call order. -/
def widgetInitParams (calls : List Call) : List InitParams :=
  calls.filterMap Call.widgetInitParams

/-- Whether a notification reports that this node itself was added. -/
def Notification.isSelfAdd : Notification → Bool
  | Notification.ViewHierarchyChanged d => d.is_add && d.child == ViewPtr.this
  | Notification.OnBoundsChanged _ => false

/-- How many notifications of a sequence report that this node itself was
added. -/
def selfAdds (ns : List Notification) : Nat := ns.countP Notification.isSelfAdd

/-- The web view `Init` creates for a web contents and bounds (lines 28 to 30
of the source). -/
def Init_web_view (web_contents : WebContents) (bounds : Rect) : WebView :=
  ((WebView.new web_contents.GetBrowserContext).SetWebContents web_contents).SetPreferredSize
    bounds.size

/-- A toolkit whose widget init sequence delivers the given notifications and
satisfies the three closing assertions. -/
def Toolkit.delivering (ns : List Notification) : Toolkit :=
  { Widget_Init := fun _ =>
      { notifications := ns, widget_is_GetWidget := true, is_top_level := true,
        CanActivate := true } }

/-- The notification that this node itself was added to a parent. -/
def selfAdded : Notification :=
  Notification.ViewHierarchyChanged
    { is_add := true, parent := ViewPtr.other 0, child := ViewPtr.this, move_view := ViewPtr.null }

/-! ## Frame lemmas -/

theorem InitContent_calls (s : CefWindowDelegateView) :
    s.InitContent.calls = s.calls ++
      [Call.SetBackground (Background.solid s.background_color_),
       Call.SetLayoutManager LayoutManager.FillLayout,
       Call.AddChildView (ViewPtr.ofWebView s.web_view_)] := by
  simp [CefWindowDelegateView.InitContent, CefWindowDelegateView.AddChildView,
    CefWindowDelegateView.SetLayoutManager, CefWindowDelegateView.SetBackground,
    CreateSolidBackground]

theorem InitContent_ne (s : CefWindowDelegateView) : s.InitContent ≠ s := by
  intro h
  have h1 := congrArg (fun t => t.calls.length) h
  simp [InitContent_calls] at h1

theorem ViewHierarchyChanged_selfAdd (s : CefWindowDelegateView)
    (d : ViewHierarchyChangedDetails)
    (h : (Notification.ViewHierarchyChanged d).isSelfAdd = true) :
    s.ViewHierarchyChanged d = s.InitContent := by
  simp only [Notification.isSelfAdd] at h
  simp [CefWindowDelegateView.ViewHierarchyChanged, h]

theorem ViewHierarchyChanged_other (s : CefWindowDelegateView)
    (d : ViewHierarchyChangedDetails)
    (h : (Notification.ViewHierarchyChanged d).isSelfAdd = false) :
    s.ViewHierarchyChanged d = s := by
  simp only [Notification.isSelfAdd] at h
  simp [CefWindowDelegateView.ViewHierarchyChanged, h]

theorem OnBoundsChanged_calls (s : CefWindowDelegateView) (r : Rect) :
    (s.OnBoundsChanged r).calls =
      s.calls ++ Call.WidgetDelegateView_OnBoundsChanged r ::
        (match s.on_bounds_changed_ with
         | none => []
         | some target => [Call.Run target]) := by
  unfold CefWindowDelegateView.OnBoundsChanged
  cases h : s.on_bounds_changed_ <;> simp [h]

/-- A notification leaves the four member fields as they were. -/
theorem notify_fields (s : CefWindowDelegateView) (n : Notification) :
    (s.notify n).background_color_ = s.background_color_ ∧
    (s.notify n).web_view_ = s.web_view_ ∧
    (s.notify n).always_on_top_ = s.always_on_top_ ∧
    (s.notify n).on_bounds_changed_ = s.on_bounds_changed_ := by
  cases n with
  | ViewHierarchyChanged d =>
    simp only [CefWindowDelegateView.notify, CefWindowDelegateView.ViewHierarchyChanged]
    split <;>
      simp [CefWindowDelegateView.InitContent, CefWindowDelegateView.AddChildView,
        CefWindowDelegateView.SetLayoutManager, CefWindowDelegateView.SetBackground]
  | OnBoundsChanged r =>
    simp only [CefWindowDelegateView.notify, CefWindowDelegateView.OnBoundsChanged]
    cases h : s.on_bounds_changed_ <;> simp [h]

/-- A sequence of notifications leaves the four member fields as they were. -/
theorem deliver_fields (ns : List Notification) (s : CefWindowDelegateView) :
    (s.deliver ns).background_color_ = s.background_color_ ∧
    (s.deliver ns).web_view_ = s.web_view_ ∧
    (s.deliver ns).always_on_top_ = s.always_on_top_ ∧
    (s.deliver ns).on_bounds_changed_ = s.on_bounds_changed_ := by
  induction ns generalizing s with
  | nil => simp [CefWindowDelegateView.deliver]
  | cons n ns ih =>
    obtain ⟨h1, h2, h3, h4⟩ := notify_fields s n
    obtain ⟨g1, g2, g3, g4⟩ := ih (s.notify n)
    simp only [CefWindowDelegateView.deliver]
    exact ⟨g1.trans h1, g2.trans h2, g3.trans h3, g4.trans h4⟩

/-- What one notification adds to the children and to the recorded calls. -/
theorem notify_effect (s : CefWindowDelegateView) (n : Notification) :
    (s.notify n).children =
      s.children ++ List.replicate (selfAdds [n]) (ViewPtr.ofWebView s.web_view_) ∧
    addedViews (s.notify n).calls =
      addedViews s.calls ++ List.replicate (selfAdds [n]) (ViewPtr.ofWebView s.web_view_) ∧
    widgetInitParams (s.notify n).calls = widgetInitParams s.calls := by
  cases n with
  | ViewHierarchyChanged d =>
    cases h : (Notification.ViewHierarchyChanged d).isSelfAdd
    · simp [CefWindowDelegateView.notify, ViewHierarchyChanged_other s d h, selfAdds, h]
    · simp [CefWindowDelegateView.notify, ViewHierarchyChanged_selfAdd s d h, selfAdds, h,
        InitContent_calls, addedViews, widgetInitParams, Call.addedView, Call.widgetInitParams,
        List.filterMap_append]
      simp [CefWindowDelegateView.InitContent, CefWindowDelegateView.AddChildView,
        CefWindowDelegateView.SetLayoutManager, CefWindowDelegateView.SetBackground]
  | OnBoundsChanged r =>
    have hc := OnBoundsChanged_calls s r
    have hch : (s.OnBoundsChanged r).children = s.children := by
      unfold CefWindowDelegateView.OnBoundsChanged
      cases h : s.on_bounds_changed_ <;> simp [h]
    cases h : s.on_bounds_changed_ <;>
      simp [CefWindowDelegateView.notify, hc, hch, h, selfAdds, Notification.isSelfAdd,
        addedViews, widgetInitParams, Call.addedView, Call.widgetInitParams,
        List.filterMap_append]

theorem selfAdds_cons (n : Notification) (ns : List Notification) :
    selfAdds (n :: ns) = selfAdds [n] + selfAdds ns := by
  simp only [selfAdds, List.countP_cons, List.countP_nil]
  omega

/-- What a sequence of notifications adds to the children and to the recorded
calls: one insertion of the `web_view_` pointer for each notification that
this node itself was added, and no call of `views::Widget::Init`. -/
theorem deliver_effect (ns : List Notification) (s : CefWindowDelegateView) :
    (s.deliver ns).children =
      s.children ++ List.replicate (selfAdds ns) (ViewPtr.ofWebView s.web_view_) ∧
    addedViews (s.deliver ns).calls =
      addedViews s.calls ++ List.replicate (selfAdds ns) (ViewPtr.ofWebView s.web_view_) ∧
    widgetInitParams (s.deliver ns).calls = widgetInitParams s.calls := by
  induction ns generalizing s with
  | nil => simp [CefWindowDelegateView.deliver, selfAdds]
  | cons n ns ih =>
    obtain ⟨h1, h2, h3⟩ := notify_effect s n
    obtain ⟨g1, g2, g3⟩ := ih (s.notify n)
    have hw := (notify_fields s n).2.1
    simp only [CefWindowDelegateView.deliver]
    rw [g1, g2, g3, h1, h2, h3, hw, selfAdds_cons n ns, List.replicate_add]
    simp only [List.append_assoc, and_self]

/-- The state in which `Init` returns or stops, when `web_view_` was unset:
the new web view is stored, `views::Widget::Init` is called with the
parameters built from the arguments, and the notifications of the init
sequence are delivered. -/
theorem Init_state (tk : Toolkit) (s : CefWindowDelegateView) (parent_widget : AcceleratedWidget)
    (web_contents : WebContents) (bounds : Rect) (h : s.web_view_ = none) :
    (CefWindowDelegateView.Init tk s parent_widget web_contents bounds).state =
      CefWindowDelegateView.deliver
        { s with
          web_view_ := some (Init_web_view web_contents bounds)
          calls := s.calls ++ [Call.Widget_Init (s.Init_params parent_widget bounds)] }
        (tk.Widget_Init (s.Init_params parent_widget bounds)).notifications := by
  simp only [CefWindowDelegateView.Init, DCHECK, h, Option.isSome_none, Bool.not_false,
    if_true, Init_web_view, CefWindowDelegateView.Init_params]
  split <;> [split <;> [split <;> rfl; rfl]; rfl]

/-- The assertion at which `Init` stops when `web_view_` is already set; the
state is untouched. -/
theorem Init_web_view_set (tk : Toolkit) (s : CefWindowDelegateView)
    (parent_widget : AcceleratedWidget) (web_contents : WebContents) (bounds : Rect)
    (h : s.web_view_ ≠ none) :
    CefWindowDelegateView.Init tk s parent_widget web_contents bounds =
      { state := s, failed := some InitError.DCHECK_not_web_view_ } := by
  cases hw : s.web_view_ with
  | none => exact absurd hw h
  | some w => simp [CefWindowDelegateView.Init, DCHECK, hw]

/-- The closing assertions of `Init`: which one stops it, if any. -/
theorem closing_DCHECKs_failed (w : WidgetInitOutcome) (t : CefWindowDelegateView) :
    (DCHECK w.widget_is_GetWidget InitError.DCHECK_EQ_widget_GetWidget t fun _ =>
      DCHECK w.is_top_level InitError.DCHECK_is_top_level t fun _ =>
      DCHECK w.CanActivate InitError.DCHECK_CanActivate t fun _ =>
      { state := t, failed := none }).failed =
      if w.widget_is_GetWidget = false then some InitError.DCHECK_EQ_widget_GetWidget
      else if w.is_top_level = false then some InitError.DCHECK_is_top_level
      else if w.CanActivate = false then some InitError.DCHECK_CanActivate
      else none := by
  obtain ⟨ns, a, b, c⟩ := w
  cases a <;> cases b <;> cases c <;> simp [DCHECK]

/-- The assertion, if any, at which `Init` stops when `web_view_` was unset. -/
theorem Init_failed (tk : Toolkit) (s : CefWindowDelegateView) (parent_widget : AcceleratedWidget)
    (web_contents : WebContents) (bounds : Rect) (h : s.web_view_ = none) :
    (CefWindowDelegateView.Init tk s parent_widget web_contents bounds).failed =
      if (tk.Widget_Init (s.Init_params parent_widget bounds)).widget_is_GetWidget = false then
        some InitError.DCHECK_EQ_widget_GetWidget
      else if (tk.Widget_Init (s.Init_params parent_widget bounds)).is_top_level = false then
        some InitError.DCHECK_is_top_level
      else if (tk.Widget_Init (s.Init_params parent_widget bounds)).CanActivate = false then
        some InitError.DCHECK_CanActivate
      else none := by
  have hd : ∀ (e : InitError) (t : CefWindowDelegateView) (k : Unit → InitResult),
      DCHECK (!s.web_view_.isSome) e t k = k () := by
    intro e t k
    simp [DCHECK, h]
  unfold CefWindowDelegateView.Init
  rw [hd]
  exact closing_DCHECKs_failed _ _

/-- What a sequence of notifications does to the background and the layout
manager: both are set, to the solid fill of the stored colour and to a fill
layout, as soon as one notification reports that this node was added. -/
theorem deliver_background (ns : List Notification) (s : CefWindowDelegateView) :
    (s.deliver ns).background =
      (if 0 < selfAdds ns then some (Background.solid s.background_color_) else s.background) ∧
    (s.deliver ns).layout_manager =
      (if 0 < selfAdds ns then some LayoutManager.FillLayout else s.layout_manager) := by
  induction ns generalizing s with
  | nil => simp [CefWindowDelegateView.deliver, selfAdds]
  | cons n ns ih =>
    obtain ⟨g1, g2⟩ := ih (s.notify n)
    have hc := (notify_fields s n).1
    simp only [CefWindowDelegateView.deliver]
    rw [g1, g2, hc, selfAdds_cons n ns]
    cases n with
    | ViewHierarchyChanged d =>
      cases h : (Notification.ViewHierarchyChanged d).isSelfAdd
      · simp [CefWindowDelegateView.notify, ViewHierarchyChanged_other s d h, selfAdds, h]
      · by_cases h0 : 0 < List.countP Notification.isSelfAdd ns <;>
          simp [CefWindowDelegateView.notify, ViewHierarchyChanged_selfAdd s d h, selfAdds, h, h0,
            CefWindowDelegateView.InitContent, CefWindowDelegateView.AddChildView,
            CefWindowDelegateView.SetLayoutManager, CefWindowDelegateView.SetBackground,
            CreateSolidBackground]
    | OnBoundsChanged r =>
      have hb : (s.OnBoundsChanged r).background = s.background ∧
          (s.OnBoundsChanged r).layout_manager = s.layout_manager := by
        unfold CefWindowDelegateView.OnBoundsChanged
        cases h : s.on_bounds_changed_ <;> simp [h]
      simp [CefWindowDelegateView.notify, hb.1, hb.2, selfAdds, Notification.isSelfAdd]

theorem runCount_OnBoundsChanged (s : CefWindowDelegateView) (r : Rect) :
    runCount (s.OnBoundsChanged r).calls =
      runCount s.calls + (if s.on_bounds_changed_ = none then 0 else 1) := by
  rw [OnBoundsChanged_calls]
  cases h : s.on_bounds_changed_ <;> simp [runCount, List.countP_append, List.countP_cons,
    Call.isRun]

theorem OnBoundsChanged_closure (s : CefWindowDelegateView) (r : Rect) :
    (s.OnBoundsChanged r).on_bounds_changed_ = s.on_bounds_changed_ :=
  (notify_fields s (Notification.OnBoundsChanged r)).2.2.2

theorem runCount_foldl_OnBoundsChanged (changes : List Rect) (s : CefWindowDelegateView) :
    runCount (changes.foldl CefWindowDelegateView.OnBoundsChanged s).calls =
      runCount s.calls + (if s.on_bounds_changed_ = none then 0 else changes.length) := by
  induction changes generalizing s with
  | nil => simp
  | cons r rs ih =>
    simp only [List.foldl_cons, List.length_cons]
    rw [ih, runCount_OnBoundsChanged, OnBoundsChanged_closure]
    cases h : s.on_bounds_changed_ <;> simp
    omega

/-- The first assertion of `Init` stops it exactly when `web_view_` is set. -/
theorem Init_stops_first_iff (tk : Toolkit) (s : CefWindowDelegateView)
    (parent_widget : AcceleratedWidget) (web_contents : WebContents) (bounds : Rect) :
    (CefWindowDelegateView.Init tk s parent_widget web_contents bounds).failed =
        some InitError.DCHECK_not_web_view_ ↔ s.web_view_ ≠ none := by
  constructor
  · intro hf hn
    rw [Init_failed tk s _ _ _ hn] at hf
    split_ifs at hf <;> cases hf
  · intro hn
    rw [Init_web_view_set tk s _ _ _ hn]

/-! ## The claims -/

/-- C1: for every node state and every `previous_bounds`, one call of
`OnBoundsChanged` calls the base implementation and then runs the stored
closure exactly once when the closure is non-null, and runs nothing when it is
null (the method is total: there is no failure outcome); any number of bounds
changes on a node with a non-null closure runs it exactly that many times. -/
theorem C1_OnBoundsChanged_runs_closure_once_per_change (s : CefWindowDelegateView)
    (previous_bounds : Rect) (changes : List Rect) :
    (∀ target, s.on_bounds_changed_ = some target →
      (s.OnBoundsChanged previous_bounds).calls =
        s.calls ++ [Call.WidgetDelegateView_OnBoundsChanged previous_bounds, Call.Run target] ∧
      runCount (s.OnBoundsChanged previous_bounds).calls = runCount s.calls + 1 ∧
      runCount (changes.foldl CefWindowDelegateView.OnBoundsChanged s).calls =
        runCount s.calls + changes.length) ∧
    (s.on_bounds_changed_ = none →
      (s.OnBoundsChanged previous_bounds).calls =
        s.calls ++ [Call.WidgetDelegateView_OnBoundsChanged previous_bounds] ∧
      runCount (s.OnBoundsChanged previous_bounds).calls = runCount s.calls) := by
  refine ⟨fun target h => ⟨?_, ?_, ?_⟩, fun h => ⟨?_, ?_⟩⟩
  · rw [OnBoundsChanged_calls, h]
  · rw [runCount_OnBoundsChanged, h]; simp
  · rw [runCount_foldl_OnBoundsChanged, h]; simp
  · rw [OnBoundsChanged_calls, h]
  · rw [runCount_OnBoundsChanged, h]; simp

/-- Witness for C1: a node constructed with closure 7 runs it once on one
bounds change and three times on three; a node constructed with the null
closure runs nothing. -/
theorem C1_OnBoundsChanged_runs_closure_once_per_change_witness :
    (runCount ((CefWindowDelegateView.CefWindowDelegateView 0 false (some 7)).OnBoundsChanged
        ⟨0, 0, 10, 10⟩).calls = 0 + 1 ∧
      runCount (([⟨0, 0, 1, 1⟩, ⟨0, 0, 2, 2⟩, ⟨0, 0, 3, 3⟩] : List Rect).foldl
        CefWindowDelegateView.OnBoundsChanged
        (CefWindowDelegateView.CefWindowDelegateView 0 false (some 7))).calls = 0 + 3) ∧
    runCount ((CefWindowDelegateView.CefWindowDelegateView 0 false none).OnBoundsChanged
        ⟨0, 0, 10, 10⟩).calls = 0 :=
  ⟨⟨((C1_OnBoundsChanged_runs_closure_once_per_change
        (CefWindowDelegateView.CefWindowDelegateView 0 false (some 7)) ⟨0, 0, 10, 10⟩
        [⟨0, 0, 1, 1⟩, ⟨0, 0, 2, 2⟩, ⟨0, 0, 3, 3⟩]).1 7 rfl).2.1,
     ((C1_OnBoundsChanged_runs_closure_once_per_change
        (CefWindowDelegateView.CefWindowDelegateView 0 false (some 7)) ⟨0, 0, 10, 10⟩
        [⟨0, 0, 1, 1⟩, ⟨0, 0, 2, 2⟩, ⟨0, 0, 3, 3⟩]).1 7 rfl).2.2⟩,
   ((C1_OnBoundsChanged_runs_closure_once_per_change
        (CefWindowDelegateView.CefWindowDelegateView 0 false none) ⟨0, 0, 10, 10⟩ []).2 rfl).2⟩

/-- C2: for a freshly constructed node and every parent handle, web contents
and bounds, when the widget's init sequence delivers exactly one notification,
a `ViewHierarchyChanged` with `is_add` true and `child` this node, the node's
child list after `Init` is exactly the one-element list holding the web view
created by that `Init` (the one stored in `web_view_`). -/
theorem C2_Init_web_view_is_the_only_child (tk : Toolkit) (background_color : SkColor)
    (always_on_top : Bool) (on_bounds_changed : RepeatingClosure)
    (parent_widget : AcceleratedWidget) (web_contents : WebContents) (bounds : Rect)
    (details : ViewHierarchyChangedDetails)
    (h_add : details.is_add = true) (h_child : details.child = ViewPtr.this)
    (h_seq : (tk.Widget_Init
        ((CefWindowDelegateView.CefWindowDelegateView background_color always_on_top
          on_bounds_changed).Init_params parent_widget bounds)).notifications =
        [Notification.ViewHierarchyChanged details]) :
    (CefWindowDelegateView.Init tk
        (CefWindowDelegateView.CefWindowDelegateView background_color always_on_top
          on_bounds_changed) parent_widget web_contents bounds).state.children =
      [ViewPtr.web_view (Init_web_view web_contents bounds)] ∧
    (CefWindowDelegateView.Init tk
        (CefWindowDelegateView.CefWindowDelegateView background_color always_on_top
          on_bounds_changed) parent_widget web_contents bounds).state.web_view_ =
      some (Init_web_view web_contents bounds) := by
  have hs : selfAdds [Notification.ViewHierarchyChanged details] = 1 := by
    simp [selfAdds, Notification.isSelfAdd, h_add, h_child]
  rw [Init_state tk _ _ _ _ rfl, h_seq]
  refine ⟨?_, ?_⟩
  · rw [(deliver_effect _ _).1, hs]
    simp [CefWindowDelegateView.CefWindowDelegateView, ViewPtr.ofWebView]
  · rw [(deliver_fields _ _).2.1]

/-- Witness for C2: with a toolkit whose init sequence delivers the addition
of this node, `Init` on a fresh node returns and the web view is the only
child. -/
theorem C2_Init_web_view_is_the_only_child_witness :
    (CefWindowDelegateView.Init (Toolkit.delivering [selfAdded])
        (CefWindowDelegateView.CefWindowDelegateView 255 true none) 5 ⟨1, 2⟩
        ⟨3, 4, 640, 480⟩).failed = none ∧
    ((CefWindowDelegateView.Init (Toolkit.delivering [selfAdded])
        (CefWindowDelegateView.CefWindowDelegateView 255 true none) 5 ⟨1, 2⟩
        ⟨3, 4, 640, 480⟩).state.children =
      [ViewPtr.web_view (Init_web_view ⟨1, 2⟩ ⟨3, 4, 640, 480⟩)] ∧
    (CefWindowDelegateView.Init (Toolkit.delivering [selfAdded])
        (CefWindowDelegateView.CefWindowDelegateView 255 true none) 5 ⟨1, 2⟩
        ⟨3, 4, 640, 480⟩).state.web_view_ =
      some (Init_web_view ⟨1, 2⟩ ⟨3, 4, 640, 480⟩)) :=
  ⟨rfl, C2_Init_web_view_is_the_only_child (Toolkit.delivering [selfAdded]) 255 true none 5
    ⟨1, 2⟩ ⟨3, 4, 640, 480⟩
    { is_add := true, parent := ViewPtr.other 0, child := ViewPtr.this,
      move_view := ViewPtr.null } rfl rfl rfl⟩

/-- C3: `Init` stops at its first assertion, `DCHECK(!web_view_)`, exactly
when `web_view_` is set; on a freshly constructed node it does not stop there;
and on every node on which `Init` has completed, whatever notifications
followed, a second `Init` stops at that assertion and changes nothing, for
every choice of arguments and toolkit behaviour in either call. -/
theorem C3_Init_at_most_once (tk tk2 : Toolkit) (s : CefWindowDelegateView)
    (background_color : SkColor) (always_on_top : Bool) (on_bounds_changed : RepeatingClosure)
    (parent_widget parent_widget2 : AcceleratedWidget) (web_contents web_contents2 : WebContents)
    (bounds bounds2 : Rect) (between : List Notification) :
    ((CefWindowDelegateView.Init tk s parent_widget web_contents bounds).failed =
        some InitError.DCHECK_not_web_view_ ↔ s.web_view_ ≠ none) ∧
    (CefWindowDelegateView.Init tk
        (CefWindowDelegateView.CefWindowDelegateView background_color always_on_top
          on_bounds_changed) parent_widget web_contents bounds).failed ≠
      some InitError.DCHECK_not_web_view_ ∧
    ((CefWindowDelegateView.Init tk s parent_widget web_contents bounds).failed = none →
      CefWindowDelegateView.Init tk2
          ((CefWindowDelegateView.Init tk s parent_widget web_contents bounds).state.deliver
            between) parent_widget2 web_contents2 bounds2 =
        { state := (CefWindowDelegateView.Init tk s parent_widget web_contents bounds).state.deliver
            between,
          failed := some InitError.DCHECK_not_web_view_ }) := by
  refine ⟨Init_stops_first_iff tk s _ _ _, ?_, ?_⟩
  · intro hf
    exact (Init_stops_first_iff tk _ _ _ _).1 hf rfl
  · intro hok
    have hn : s.web_view_ = none := by
      by_contra hne
      rw [Init_web_view_set tk s _ _ _ hne] at hok
      simp at hok
    apply Init_web_view_set
    rw [(deliver_fields _ _).2.1, Init_state tk s _ _ _ hn, (deliver_fields _ _).2.1]
    simp

/-- Witness for C3: on a node on which `Init` has completed, with a bounds
change in between, a second `Init` stops at `DCHECK(!web_view_)`. -/
theorem C3_Init_at_most_once_witness :
    (CefWindowDelegateView.Init (Toolkit.delivering [selfAdded])
        (CefWindowDelegateView.CefWindowDelegateView 255 true none) 5 ⟨1, 2⟩
        ⟨3, 4, 640, 480⟩).failed = none ∧
    (CefWindowDelegateView.Init (Toolkit.delivering [])
        ((CefWindowDelegateView.Init (Toolkit.delivering [selfAdded])
          (CefWindowDelegateView.CefWindowDelegateView 255 true none) 5 ⟨1, 2⟩
          ⟨3, 4, 640, 480⟩).state.deliver [Notification.OnBoundsChanged ⟨0, 0, 1, 1⟩])
        6 ⟨8, 9⟩ ⟨0, 0, 320, 200⟩).failed = some InitError.DCHECK_not_web_view_ :=
  ⟨rfl, congrArg InitResult.failed
    ((C3_Init_at_most_once (Toolkit.delivering [selfAdded]) (Toolkit.delivering [])
      (CefWindowDelegateView.CefWindowDelegateView 255 true none) 0 false none 5 6 ⟨1, 2⟩ ⟨8, 9⟩
      ⟨3, 4, 640, 480⟩ ⟨0, 0, 320, 200⟩ [Notification.OnBoundsChanged ⟨0, 0, 1, 1⟩]).2.2 rfl)⟩

/-- C4 as stated fails: a completed `Init` whose init sequence delivered the
addition of this node, followed by one more `ViewHierarchyChanged` reporting
the addition of this node, performs the insertion twice. -/
theorem C4_counterexample_second_selfAdd_inserts_again :
    (CefWindowDelegateView.Init (Toolkit.delivering [selfAdded])
        (CefWindowDelegateView.CefWindowDelegateView 255 true none) 5 ⟨1, 2⟩
        ⟨3, 4, 640, 480⟩).failed = none ∧
    addedViews ((CefWindowDelegateView.Init (Toolkit.delivering [selfAdded])
        (CefWindowDelegateView.CefWindowDelegateView 255 true none) 5 ⟨1, 2⟩
        ⟨3, 4, 640, 480⟩).state.deliver [selfAdded]).calls =
      [ViewPtr.web_view (Init_web_view ⟨1, 2⟩ ⟨3, 4, 640, 480⟩),
       ViewPtr.web_view (Init_web_view ⟨1, 2⟩ ⟨3, 4, 640, 480⟩)] :=
  ⟨rfl, rfl⟩

/-- C4, amended: in a sequence made of `Init` on a freshly constructed node
followed by any notifications, the insertion of the web view (`InitContent`)
is performed once for each `ViewHierarchyChanged` that reports the addition of
this node itself, those of the widget's init sequence and those delivered
later, and at no other time.  So when the init sequence reports that addition
exactly once and no later notification does, the insertion is performed
exactly once over the whole sequence, and it is already performed when `Init`
returns. -/
theorem C4_one_insertion_per_selfAdd (tk : Toolkit) (background_color : SkColor)
    (always_on_top : Bool) (on_bounds_changed : RepeatingClosure)
    (parent_widget : AcceleratedWidget) (web_contents : WebContents) (bounds : Rect)
    (later : List Notification) :
    addedViews ((CefWindowDelegateView.Init tk
        (CefWindowDelegateView.CefWindowDelegateView background_color always_on_top
          on_bounds_changed) parent_widget web_contents bounds).state.deliver later).calls =
      List.replicate
        (selfAdds (tk.Widget_Init
            ((CefWindowDelegateView.CefWindowDelegateView background_color always_on_top
              on_bounds_changed).Init_params parent_widget bounds)).notifications +
          selfAdds later)
        (ViewPtr.web_view (Init_web_view web_contents bounds)) ∧
    (selfAdds (tk.Widget_Init
        ((CefWindowDelegateView.CefWindowDelegateView background_color always_on_top
          on_bounds_changed).Init_params parent_widget bounds)).notifications = 1 →
      selfAdds later = 0 →
      addedViews (CefWindowDelegateView.Init tk
          (CefWindowDelegateView.CefWindowDelegateView background_color always_on_top
            on_bounds_changed) parent_widget web_contents bounds).state.calls =
        [ViewPtr.web_view (Init_web_view web_contents bounds)] ∧
      addedViews ((CefWindowDelegateView.Init tk
          (CefWindowDelegateView.CefWindowDelegateView background_color always_on_top
            on_bounds_changed) parent_widget web_contents bounds).state.deliver later).calls =
        [ViewPtr.web_view (Init_web_view web_contents bounds)]) := by
  have hinit : addedViews (CefWindowDelegateView.Init tk
      (CefWindowDelegateView.CefWindowDelegateView background_color always_on_top
        on_bounds_changed) parent_widget web_contents bounds).state.calls =
      List.replicate
        (selfAdds (tk.Widget_Init
            ((CefWindowDelegateView.CefWindowDelegateView background_color always_on_top
              on_bounds_changed).Init_params parent_widget bounds)).notifications)
        (ViewPtr.web_view (Init_web_view web_contents bounds)) := by
    rw [Init_state tk _ _ _ _ rfl, (deliver_effect _ _).2.1]
    simp [CefWindowDelegateView.CefWindowDelegateView, ViewPtr.ofWebView, addedViews,
      Call.addedView]
  have hw : (CefWindowDelegateView.Init tk
      (CefWindowDelegateView.CefWindowDelegateView background_color always_on_top
        on_bounds_changed) parent_widget web_contents bounds).state.web_view_ =
      some (Init_web_view web_contents bounds) := by
    rw [Init_state tk _ _ _ _ rfl, (deliver_fields _ _).2.1]
  have hall : addedViews ((CefWindowDelegateView.Init tk
      (CefWindowDelegateView.CefWindowDelegateView background_color always_on_top
        on_bounds_changed) parent_widget web_contents bounds).state.deliver later).calls =
      List.replicate
        (selfAdds (tk.Widget_Init
            ((CefWindowDelegateView.CefWindowDelegateView background_color always_on_top
              on_bounds_changed).Init_params parent_widget bounds)).notifications +
          selfAdds later)
        (ViewPtr.web_view (Init_web_view web_contents bounds)) := by
    rw [(deliver_effect _ _).2.1, hinit, hw, List.replicate_add]
    rfl
  refine ⟨hall, fun h1 h0 => ⟨?_, ?_⟩⟩
  · rw [hinit, h1]; rfl
  · rw [hall, h1, h0]; rfl

/-- Witness for C4: the init sequence reports the addition of this node once
(between two other notifications) and the later notifications, a removal of
this node, the addition of another view and a bounds change, do not. -/
theorem C4_one_insertion_per_selfAdd_witness :
    addedViews ((CefWindowDelegateView.Init
        (Toolkit.delivering [Notification.OnBoundsChanged ⟨0, 0, 0, 0⟩, selfAdded,
          Notification.ViewHierarchyChanged
            { is_add := true, parent := ViewPtr.this,
              child := ViewPtr.web_view (Init_web_view ⟨1, 2⟩ ⟨3, 4, 640, 480⟩),
              move_view := ViewPtr.null }])
        (CefWindowDelegateView.CefWindowDelegateView 255 true (some 7)) 5 ⟨1, 2⟩
        ⟨3, 4, 640, 480⟩).state.deliver
          [Notification.ViewHierarchyChanged
            { is_add := false, parent := ViewPtr.other 0, child := ViewPtr.this,
              move_view := ViewPtr.null },
           Notification.ViewHierarchyChanged
            { is_add := true, parent := ViewPtr.other 0, child := ViewPtr.other 1,
              move_view := ViewPtr.null },
           Notification.OnBoundsChanged ⟨3, 4, 640, 480⟩]).calls =
      [ViewPtr.web_view (Init_web_view ⟨1, 2⟩ ⟨3, 4, 640, 480⟩)] :=
  ((C4_one_insertion_per_selfAdd
    (Toolkit.delivering [Notification.OnBoundsChanged ⟨0, 0, 0, 0⟩, selfAdded,
      Notification.ViewHierarchyChanged
        { is_add := true, parent := ViewPtr.this,
          child := ViewPtr.web_view (Init_web_view ⟨1, 2⟩ ⟨3, 4, 640, 480⟩),
          move_view := ViewPtr.null }])
    255 true (some 7) 5 ⟨1, 2⟩ ⟨3, 4, 640, 480⟩
    [Notification.ViewHierarchyChanged
      { is_add := false, parent := ViewPtr.other 0, child := ViewPtr.this,
        move_view := ViewPtr.null },
     Notification.ViewHierarchyChanged
      { is_add := true, parent := ViewPtr.other 0, child := ViewPtr.other 1,
        move_view := ViewPtr.null },
     Notification.OnBoundsChanged ⟨3, 4, 640, 480⟩]).2 rfl rfl).2

/-- C5: for every node state and every notification details,
`ViewHierarchyChanged` performs the deferred content attachment
(`InitContent`) if and only if `details.is_add` is true and `details.child`
is this node; in every other case the node is left exactly as it was. -/
theorem C5_ViewHierarchyChanged_attaches_iff_selfAdd (s : CefWindowDelegateView)
    (details : ViewHierarchyChangedDetails) :
    (s.ViewHierarchyChanged details = s.InitContent ↔
      (details.is_add = true ∧ details.child = ViewPtr.this)) ∧
    (¬ (details.is_add = true ∧ details.child = ViewPtr.this) →
      s.ViewHierarchyChanged details = s) := by
  have hno : ¬ (details.is_add = true ∧ details.child = ViewPtr.this) →
      s.ViewHierarchyChanged details = s := by
    intro h
    apply ViewHierarchyChanged_other
    simp only [Notification.isSelfAdd]
    cases ha : details.is_add
    · simp
    · have hc : details.child ≠ ViewPtr.this := fun hc => h ⟨ha, hc⟩
      simp [hc]
  refine ⟨⟨fun h => ?_, fun h => ?_⟩, hno⟩
  · by_contra hcon
    rw [hno hcon] at h
    exact InitContent_ne s h.symm
  · apply ViewHierarchyChanged_selfAdd
    simp [Notification.isSelfAdd, h.1, h.2]

/-- Witness for C5: the removal of this node and the addition of another view
leave a constructed node unchanged. -/
theorem C5_ViewHierarchyChanged_attaches_iff_selfAdd_witness :
    (CefWindowDelegateView.CefWindowDelegateView 255 true (some 7)).ViewHierarchyChanged
        { is_add := false, parent := ViewPtr.other 0, child := ViewPtr.this,
          move_view := ViewPtr.null } =
      CefWindowDelegateView.CefWindowDelegateView 255 true (some 7) ∧
    (CefWindowDelegateView.CefWindowDelegateView 255 true (some 7)).ViewHierarchyChanged
        { is_add := true, parent := ViewPtr.other 0, child := ViewPtr.other 3,
          move_view := ViewPtr.null } =
      CefWindowDelegateView.CefWindowDelegateView 255 true (some 7) :=
  ⟨(C5_ViewHierarchyChanged_attaches_iff_selfAdd
      (CefWindowDelegateView.CefWindowDelegateView 255 true (some 7))
      { is_add := false, parent := ViewPtr.other 0, child := ViewPtr.this,
        move_view := ViewPtr.null }).2 (by decide),
   (C5_ViewHierarchyChanged_attaches_iff_selfAdd
      (CefWindowDelegateView.CefWindowDelegateView 255 true (some 7))
      { is_add := true, parent := ViewPtr.other 0, child := ViewPtr.other 3,
        move_view := ViewPtr.null }).2 (by decide)⟩

/-- C6: for every `always_on_top` passed to the constructor, with any colour
and closure, whatever notifications reach the node between construction and
`Init`, and for every argument triple of `Init`: the stored flag is still
`always_on_top`, and `views::Widget::Init` is called exactly once, with
`keep_on_top` equal to `always_on_top`. -/
theorem C6_keep_on_top_is_always_on_top (tk : Toolkit) (background_color : SkColor)
    (always_on_top : Bool) (on_bounds_changed : RepeatingClosure) (before : List Notification)
    (parent_widget : AcceleratedWidget) (web_contents : WebContents) (bounds : Rect) :
    ((CefWindowDelegateView.CefWindowDelegateView background_color always_on_top
        on_bounds_changed).deliver before).always_on_top_ = always_on_top ∧
    (widgetInitParams (CefWindowDelegateView.Init tk
        ((CefWindowDelegateView.CefWindowDelegateView background_color always_on_top
          on_bounds_changed).deliver before) parent_widget web_contents bounds).state.calls).map
        InitParams.keep_on_top = [always_on_top] := by
  have hf := deliver_fields before
    (CefWindowDelegateView.CefWindowDelegateView background_color always_on_top on_bounds_changed)
  have he := deliver_effect before
    (CefWindowDelegateView.CefWindowDelegateView background_color always_on_top on_bounds_changed)
  have ha : ((CefWindowDelegateView.CefWindowDelegateView background_color always_on_top
      on_bounds_changed).deliver before).always_on_top_ = always_on_top := hf.2.2.1
  have hcalls : (CefWindowDelegateView.CefWindowDelegateView background_color always_on_top
      on_bounds_changed).calls = [] := rfl
  refine ⟨ha, ?_⟩
  rw [Init_state tk _ _ _ _ (hf.2.1.trans rfl), (deliver_effect _ _).2.2]
  simp only [widgetInitParams, List.filterMap_append] at he ⊢
  rw [he.2.2, hcalls]
  simp only [List.filterMap_nil, List.nil_append, List.filterMap_cons, Call.widgetInitParams,
    List.map_cons, List.map_nil, CefWindowDelegateView.Init_params, ha]

/-- C7: for every colour `c` passed to the constructor and whatever
notifications reached the node since, once the deferred content attachment
has run, whether called directly, through a `ViewHierarchyChanged` that
reports the addition of this node, or through an `Init` whose init sequence
delivers such a notification, the background is the solid fill of exactly
`c`, the layout manager is a fill layout, and the pointer held in `web_view_`
(after `Init`: the web view it created) has been inserted as a child. -/
theorem C7_InitContent_background_layout_child (tk : Toolkit) (c : SkColor)
    (always_on_top : Bool) (on_bounds_changed : RepeatingClosure) (before : List Notification)
    (details : ViewHierarchyChangedDetails) (parent_widget : AcceleratedWidget)
    (web_contents : WebContents) (bounds : Rect)
    (h_add : details.is_add = true) (h_child : details.child = ViewPtr.this)
    (h_seq : 0 < selfAdds (tk.Widget_Init
        ((CefWindowDelegateView.CefWindowDelegateView c always_on_top
          on_bounds_changed).Init_params parent_widget bounds)).notifications) :
    (((CefWindowDelegateView.CefWindowDelegateView c always_on_top
          on_bounds_changed).deliver before).InitContent.background =
        some (Background.solid c) ∧
      ((CefWindowDelegateView.CefWindowDelegateView c always_on_top
          on_bounds_changed).deliver before).InitContent.layout_manager =
        some LayoutManager.FillLayout ∧
      ((CefWindowDelegateView.CefWindowDelegateView c always_on_top
          on_bounds_changed).deliver before).InitContent.children =
        ((CefWindowDelegateView.CefWindowDelegateView c always_on_top
          on_bounds_changed).deliver before).children ++
        [ViewPtr.ofWebView ((CefWindowDelegateView.CefWindowDelegateView c always_on_top
          on_bounds_changed).deliver before).web_view_]) ∧
    (((CefWindowDelegateView.CefWindowDelegateView c always_on_top
          on_bounds_changed).deliver before).ViewHierarchyChanged details =
      ((CefWindowDelegateView.CefWindowDelegateView c always_on_top
          on_bounds_changed).deliver before).InitContent) ∧
    ((CefWindowDelegateView.Init tk
          (CefWindowDelegateView.CefWindowDelegateView c always_on_top on_bounds_changed)
          parent_widget web_contents bounds).state.background = some (Background.solid c) ∧
      (CefWindowDelegateView.Init tk
          (CefWindowDelegateView.CefWindowDelegateView c always_on_top on_bounds_changed)
          parent_widget web_contents bounds).state.layout_manager =
        some LayoutManager.FillLayout ∧
      ViewPtr.web_view (Init_web_view web_contents bounds) ∈
        (CefWindowDelegateView.Init tk
          (CefWindowDelegateView.CefWindowDelegateView c always_on_top on_bounds_changed)
          parent_widget web_contents bounds).state.children) := by
  have hf := deliver_fields before
    (CefWindowDelegateView.CefWindowDelegateView c always_on_top on_bounds_changed)
  refine ⟨⟨?_, ?_, ?_⟩, ?_, ?_, ?_, ?_⟩
  · have hc : ((CefWindowDelegateView.CefWindowDelegateView c always_on_top
        on_bounds_changed).deliver before).background_color_ = c := hf.1
    simp only [CefWindowDelegateView.InitContent, CefWindowDelegateView.AddChildView,
      CefWindowDelegateView.SetLayoutManager, CefWindowDelegateView.SetBackground,
      CreateSolidBackground, hc]
  · simp [CefWindowDelegateView.InitContent, CefWindowDelegateView.AddChildView,
      CefWindowDelegateView.SetLayoutManager, CefWindowDelegateView.SetBackground]
  · simp [CefWindowDelegateView.InitContent, CefWindowDelegateView.AddChildView,
      CefWindowDelegateView.SetLayoutManager, CefWindowDelegateView.SetBackground]
  · apply ViewHierarchyChanged_selfAdd
    simp [Notification.isSelfAdd, h_add, h_child]
  · rw [Init_state tk _ _ _ _ rfl, (deliver_background _ _).1, if_pos h_seq]
    rfl
  · rw [Init_state tk _ _ _ _ rfl, (deliver_background _ _).2, if_pos h_seq]
  · rw [Init_state tk _ _ _ _ rfl, (deliver_effect _ _).1]
    apply List.mem_append_right
    exact List.mem_replicate.2 ⟨by omega, rfl⟩

/-- Witness for C7: a node constructed with colour 255, after a bounds change,
and an `Init` whose init sequence reports the addition of this node. -/
theorem C7_InitContent_background_layout_child_witness :
    (((CefWindowDelegateView.CefWindowDelegateView 255 false none).deliver
          [Notification.OnBoundsChanged ⟨0, 0, 1, 1⟩]).ViewHierarchyChanged
        { is_add := true, parent := ViewPtr.other 0, child := ViewPtr.this,
          move_view := ViewPtr.null }).background = some (Background.solid 255) ∧
    (CefWindowDelegateView.Init (Toolkit.delivering [selfAdded])
        (CefWindowDelegateView.CefWindowDelegateView 255 false none) 5 ⟨1, 2⟩
        ⟨3, 4, 640, 480⟩).state.background = some (Background.solid 255) :=
  have h := C7_InitContent_background_layout_child (Toolkit.delivering [selfAdded]) 255 false
    none [Notification.OnBoundsChanged ⟨0, 0, 1, 1⟩]
    { is_add := true, parent := ViewPtr.other 0, child := ViewPtr.this,
      move_view := ViewPtr.null } 5 ⟨1, 2⟩ ⟨3, 4, 640, 480⟩ rfl rfl (by decide)
  ⟨(congrArg CefWindowDelegateView.background h.2.1).trans h.1.1, h.2.2.1⟩

/-- C8: for every parent handle, web contents and bounds, and whatever the
node was constructed with, `Init` calls `views::Widget::Init` exactly once,
with `parent_widget` the given handle, `bounds` the given bounds, `delegate`
this node, `child` true, `type` control, `opacity` opaque window,
`remove_standard_frame` true and `activatable` yes. -/
theorem C8_Init_widget_params (tk : Toolkit) (background_color : SkColor) (always_on_top : Bool)
    (on_bounds_changed : RepeatingClosure) (parent_widget : AcceleratedWidget)
    (web_contents : WebContents) (bounds : Rect) :
    ∃ params : InitParams,
      widgetInitParams (CefWindowDelegateView.Init tk
        (CefWindowDelegateView.CefWindowDelegateView background_color always_on_top
          on_bounds_changed) parent_widget web_contents bounds).state.calls = [params] ∧
      params.parent_widget = parent_widget ∧
      params.bounds = bounds ∧
      params.delegate = ViewPtr.this ∧
      params.child = true ∧
      params.type = InitParamsType.TYPE_CONTROL ∧
      params.opacity = WindowOpacity.OPAQUE_WINDOW ∧
      params.remove_standard_frame = true ∧
      params.activatable = Activatable.ACTIVATABLE_YES := by
  refine ⟨(CefWindowDelegateView.CefWindowDelegateView background_color always_on_top
    on_bounds_changed).Init_params parent_widget bounds, ?_, rfl, rfl, rfl, rfl, rfl, rfl, rfl, rfl⟩
  rw [Init_state tk _ _ _ _ rfl, (deliver_effect _ _).2.2]
  simp [CefWindowDelegateView.CefWindowDelegateView, widgetInitParams, Call.widgetInitParams]

/-- C9: for every web contents and bounds, the web view that a successful
`Init` stores in `web_view_` was constructed with the browser context obtained
from the web contents, has that web contents attached, and has as preferred
size the width and height of the bounds, whatever their origin. -/
theorem C9_Init_web_view (tk : Toolkit) (s : CefWindowDelegateView)
    (parent_widget : AcceleratedWidget) (web_contents : WebContents) (bounds : Rect)
    (h_ok : (CefWindowDelegateView.Init tk s parent_widget web_contents bounds).failed = none) :
    ∃ web_view : WebView,
      (CefWindowDelegateView.Init tk s parent_widget web_contents bounds).state.web_view_ =
        some web_view ∧
      web_view.browser_context = web_contents.GetBrowserContext ∧
      web_view.web_contents = some web_contents ∧
      web_view.preferred_size = some { width := bounds.width, height := bounds.height } := by
  have hn : s.web_view_ = none := by
    by_contra hne
    rw [Init_web_view_set tk s _ _ _ hne] at h_ok
    simp at h_ok
  refine ⟨Init_web_view web_contents bounds, ?_, rfl, rfl, rfl⟩
  rw [Init_state tk s _ _ _ hn, (deliver_fields _ _).2.1]

/-- Witness for C9: a successful `Init` with bounds of origin (3, 4) and size
640 by 480. -/
theorem C9_Init_web_view_witness :
    ∃ web_view : WebView,
      (CefWindowDelegateView.Init (Toolkit.delivering [selfAdded])
        (CefWindowDelegateView.CefWindowDelegateView 255 true none) 5 ⟨1, 2⟩
        ⟨3, 4, 640, 480⟩).state.web_view_ = some web_view ∧
      web_view.browser_context = WebContents.GetBrowserContext ⟨1, 2⟩ ∧
      web_view.web_contents = some ⟨1, 2⟩ ∧
      web_view.preferred_size = some { width := 640, height := 480 } :=
  C9_Init_web_view (Toolkit.delivering [selfAdded])
    (CefWindowDelegateView.CefWindowDelegateView 255 true none) 5 ⟨1, 2⟩ ⟨3, 4, 640, 480⟩ rfl

/-- C10: in `Init` the web view is stored before the widget's init sequence
runs: whatever that sequence delivers, every pointer that `Init` on a freshly
constructed node hands to `AddChildView` is the (non-null) web view created by
that `Init`, once per reported addition of this node.  By contrast a
`ViewHierarchyChanged` reporting the addition of this node, delivered to a
constructed node on which `Init` has not run, reaches `InitContent` with
`web_view_` unset and hands the null pointer to `AddChildView`. -/
theorem C10_web_view_set_before_attachment_only_through_Init (tk : Toolkit)
    (background_color : SkColor) (always_on_top : Bool) (on_bounds_changed : RepeatingClosure)
    (parent_widget : AcceleratedWidget) (web_contents : WebContents) (bounds : Rect)
    (parent move_view : ViewPtr) :
    (addedViews (CefWindowDelegateView.Init tk
        (CefWindowDelegateView.CefWindowDelegateView background_color always_on_top
          on_bounds_changed) parent_widget web_contents bounds).state.calls =
      List.replicate
        (selfAdds (tk.Widget_Init
          ((CefWindowDelegateView.CefWindowDelegateView background_color always_on_top
            on_bounds_changed).Init_params parent_widget bounds)).notifications)
        (ViewPtr.web_view (Init_web_view web_contents bounds)) ∧
      ViewPtr.web_view (Init_web_view web_contents bounds) ≠ ViewPtr.null ∧
      (CefWindowDelegateView.Init tk
        (CefWindowDelegateView.CefWindowDelegateView background_color always_on_top
          on_bounds_changed) parent_widget web_contents bounds).state.web_view_ =
        some (Init_web_view web_contents bounds)) ∧
    ((CefWindowDelegateView.CefWindowDelegateView background_color always_on_top
        on_bounds_changed).web_view_ = none ∧
      ((CefWindowDelegateView.CefWindowDelegateView background_color always_on_top
        on_bounds_changed).ViewHierarchyChanged
        { is_add := true, parent := parent, child := ViewPtr.this, move_view := move_view }) =
        (CefWindowDelegateView.CefWindowDelegateView background_color always_on_top
          on_bounds_changed).InitContent ∧
      addedViews ((CefWindowDelegateView.CefWindowDelegateView background_color always_on_top
        on_bounds_changed).ViewHierarchyChanged
        { is_add := true, parent := parent, child := ViewPtr.this,
          move_view := move_view }).calls = [ViewPtr.null] ∧
      ((CefWindowDelegateView.CefWindowDelegateView background_color always_on_top
        on_bounds_changed).ViewHierarchyChanged
        { is_add := true, parent := parent, child := ViewPtr.this,
          move_view := move_view }).children = [ViewPtr.null]) := by
  refine ⟨⟨?_, ?_, ?_⟩, rfl, rfl, rfl, rfl⟩
  · rw [Init_state tk _ _ _ _ rfl, (deliver_effect _ _).2.1]
    simp [CefWindowDelegateView.CefWindowDelegateView, ViewPtr.ofWebView, addedViews,
      Call.addedView]
  · intro h; cases h
  · rw [Init_state tk _ _ _ _ rfl, (deliver_fields _ _).2.1]

end libcef
